import Mathlib

/-!
Shallow embedding of `src/src/handler/sign_psbt.c` (Ledger Bitcoin app, PSBT
signing handler).  Each static continuation of the C file becomes one Lean
function over an explicit session-state record; the external collaborators
(the Merkle-authenticated map accessor, the streaming raw-transaction parser
invoked through `call_psbt_parse_rawtx`, and the cryptographic primitives of
the OS) are modelled as an environment record of oracle functions, exactly at
the interface the C code consumes them.  Bytes are `Nat`s, byte buffers are
`List Nat`, and the streaming SHA-256 context is modelled by the list of bytes
absorbed into it, with the SHA-256 compression itself an oracle `Env.sha`.
-/

namespace SignPsbt

/-- Status words sent through `dc->send_sw` (symbolic, from `sw.h`). -/
inductive SW
  | ok
  | wrong_p1p2
  | security_status_not_satisfied
  | wrong_data_length
  | incorrect_data
  | signature_fail
  | bad_state
  deriving DecidableEq, Repr

/-- PSBT key-type constants used by the handler (from `psbt.h`). -/
def PSBT_GLOBAL_UNSIGNED_TX : Nat := 0x00

def PSBT_IN_NON_WITNESS_UTXO : Nat := 0x00

def PSBT_IN_WITNESS_UTXO : Nat := 0x01

def PSBT_IN_SIGHASH_TYPE : Nat := 0x03

def PSBT_IN_REDEEM_SCRIPT : Nat := 0x04

/-- Modelled from the spec: `MAX_PREVOUT_SCRIPTPUBKEY_LEN` is declared in
`constants.h`, which is not among the given sources; the spec only says the
scriptPubKey length is bounded by a maximum supported script length.  The
exact value is irrelevant to every claim below (no theorem depends on it
beyond a concrete 25-byte P2PKH script fitting under it). -/
def MAX_PREVOUT_SCRIPTPUBKEY_LEN : Nat := 83

/-- The fields of `sign_psbt_state_t` (and of the `subcontext` results the
handler reads back) that the code under verification touches.  The
`sub_` fields mirror `state->subcontext.psbt_parse_rawtx.program_state.*`
and `state->subcontext.psbt_process_redeemScript.p2sh_script`, i.e. the data
deposited there by the external subprocessors and read by the handler. -/
structure State where
  global_map_size : Nat := 0
  global_map_keys_root : List Nat := []
  global_map_values_root : List Nat := []
  n_inputs : Nat := 0
  inputs_root : List Nat := []
  n_outputs : Nat := 0
  outputs_root : List Nat := []
  master_key_fingerprint : Nat := 0
  cur_input_index : Nat := 0
  cur_prevout_hash : List Nat := []
  cur_prevout_n : Nat := 0
  cur_input_has_witnessUtxo : Bool := false
  cur_input_has_redeemScript : Bool := false
  cur_input_has_sighash_type : Bool := false
  cur_input_sighash_type_le : List Nat := []
  cur_input_sighash_type : Nat := 0
  cur_input_prevout_scriptpubkey : List Nat := []
  cur_input_prevout_scriptpubkey_len : Nat := 0
  hash_context : List Nat := []
  sub_n_inputs : Nat := 0
  sub_n_outputs : Nat := 0
  sub_prevout_hash : List Nat := []
  sub_prevout_n : Nat := 0
  sub_vout_scriptpubkey : List Nat := []
  sub_vout_scriptpubkey_len : Nat := 0
  sub_p2sh_script : List Nat := []
  deriving DecidableEq, Repr

/-- A fresh session state (all fields zero / empty). -/
def initState : State := {}

/-- The external collaborators, at the exact interface `sign_psbt.c` consumes
them.  `sha` is the SHA-256 compression (finalizing a streaming context whose
absorbed bytes are `l` yields `sha l`).  The `tx_` fields are what
`call_psbt_parse_rawtx` in `PARSEMODE_TXID` on the global unsigned
transaction deposits in the subcontext when targeting a given input index;
`nwu_` likewise for the non-witness UTXO of input `i` with requested output
index `n`; `pass1_bytes`/`pass2_bytes` are the bytes the two legacy parse
modes absorb into the running hash context for a given input index and
sighash type; `redeem_bytes` and `p2sh_script_of` are the absorbed bytes and
the returned 22-byte P2SH script of `call_psbt_process_redeemScript`;
`input_keys` lists the keys of input `i`'s authenticated map (fed one by one
to the key callback); `sighash_le` is the value fetched for
`PSBT_IN_SIGHASH_TYPE`; `ecdsa_sign` is `cx_ecdsa_sign`, with `none`
modelling a thrown exception. -/
structure Env where
  sha : List Nat → List Nat
  tx_bytes : List Nat
  tx_n_inputs : Nat
  tx_n_outputs : Nat
  tx_prevout_hash : Nat → List Nat
  tx_prevout_n : Nat → Nat
  input_keys : Nat → List (List Nat)
  sighash_le : Nat → List Nat
  nwu_bytes : Nat → List Nat
  nwu_vout_spk : Nat → Nat → List Nat
  nwu_vout_spk_len : Nat → Nat → Nat
  pass1_bytes : Nat → Nat → List Nat
  pass2_bytes : Nat → Nat → List Nat
  redeem_bytes : Nat → List Nat
  p2sh_script_of : Nat → List Nat
  master_fingerprint : Nat
  derived_private_key : List Nat
  derived_chain_code : List Nat
  ecdsa_sign : List Nat → Option (List Nat)

/-- Little-endian value of a byte list. -/
def read_le_bytes (bs : List Nat) : Nat := bs.foldr (fun b acc => b + 256 * acc) 0

/-- Model of `buffer_read_bytes`: take `n` bytes off the front of the read buffer. -/
def buffer_read_bytes (n : Nat) (buf : List Nat) : Option (List Nat × List Nat) :=
  if n ≤ buf.length then some (buf.take n, buf.drop n) else none

/-- Model of `buffer_read_varint`: Bitcoin compact-size integer from the read buffer. -/
def buffer_read_varint (buf : List Nat) : Option (Nat × List Nat) :=
  match buf with
  | [] => none
  | b :: rest =>
    if b < 0xfd then some (b, rest)
    else
      let k : Nat := if b = 0xfd then 2 else if b = 0xfe then 4 else 8
      match buffer_read_bytes k rest with
      | none => none
      | some (bs, rest2) => some (read_le_bytes bs, rest2)

/-- Little-endian byte encodings used by the varint writer. -/
def write_u16_le (n : Nat) : List Nat := [n % 256, n / 256 % 256]

def write_u32_le (n : Nat) : List Nat :=
  [n % 256, n / 256 % 256, n / 65536 % 256, n / 16777216 % 256]

def write_u64_le (n : Nat) : List Nat :=
  write_u32_le (n % 4294967296) ++ write_u32_le (n / 4294967296)

/-- Model of `crypto_hash_update_varint`: the Bitcoin compact-size encoding appended to
the hash context. -/
def varint_encode (n : Nat) : List Nat :=
  if n < 0xfd then [n]
  else if n < 0x10000 then 0xfd :: write_u16_le n
  else if n < 0x100000000 then 0xfe :: write_u32_le n
  else 0xff :: write_u64_le n

/-- The names of the static continuation functions of `sign_psbt.c`. -/
inductive Step
  | processNextInput
  | receiveGlobalTxInfo
  | requestNextInputMap
  | processInputMap
  | receiveSighashType
  | requestNonWitnessUtxo
  | receiveNonWitnessUtxo
  | signLegacy
  | signLegacyFirstPassCompleted
  | signLegacyValidateRedeemScript
  | signLegacyStartSecondPass
  | computeSighashAndSignLegacy
  | signSegwit
  deriving DecidableEq, Repr

/-- Outcome of one continuation: a status word was sent (`dc->send_sw`,
terminal), the next continuation was scheduled (`dc->next` or a `call_*`
whose completion resumes at the named continuation), or the function
returned without doing either (the `CATCH_OTHER` path of the signer). -/
inductive StepResult
  | sent (sw : SW) (st : State)
  | next (s : Step) (st : State)
  | halted (st : State)
  deriving DecidableEq, Repr

/-- The state carried by a step outcome. -/
def StepResult.stateOf : StepResult → State
  | .sent _ st => st
  | .next _ st => st
  | .halted st => st

/-- The status word, if the step sent one. -/
def StepResult.sentSW : StepResult → Option SW
  | .sent sw _ => some sw
  | _ => none

/-- Result of `handler_sign_psbt` itself: either a status word was sent
before reaching the first authenticated-map operation, or control proceeded
into `call_check_merkle_tree_sorted` (the first fetch from the host). -/
inductive HandlerResult
  | sent (sw : SW) (st : State)
  | proceed (st : State)
  deriving DecidableEq, Repr

/-- The status word, if the handler sent one before any map access. -/
def HandlerResult.sentSW : HandlerResult → Option SW
  | .sent sw _ => some sw
  | .proceed _ => none

/-- The state carried by a handler outcome. -/
def HandlerResult.stateOf : HandlerResult → State
  | .sent _ st => st
  | .proceed st => st

/-- Model of `handler_sign_psbt` (lines 64-143): parameter check, unlock check, then
sequential parsing of the command header, with each count checked against
252 at the point the C code checks it; ends at the
`call_check_merkle_tree_sorted` call, the first authenticated-map fetch. -/
def handler_sign_psbt (p1 p2 : Nat) (pin_validated : Bool) (buf : List Nat)
    (e : Env) (st : State) : HandlerResult :=
  if p1 ≠ 0 ∨ p2 ≠ 0 then .sent SW.wrong_p1p2 st
  else if ¬ pin_validated then .sent SW.security_status_not_satisfied st
  else
    match buffer_read_varint buf with
    | none => .sent SW.wrong_data_length st
    | some (gsize, buf1) =>
      let st := { st with global_map_size := gsize }
      if gsize > 252 then .sent SW.incorrect_data st
      else
        match buffer_read_bytes 20 buf1 with
        | none => .sent SW.wrong_data_length st
        | some (kr, buf2) =>
          let st := { st with global_map_keys_root := kr }
          match buffer_read_bytes 20 buf2 with
          | none => .sent SW.wrong_data_length st
          | some (vr, buf3) =>
            let st := { st with global_map_values_root := vr }
            match buffer_read_varint buf3 with
            | none => .sent SW.wrong_data_length st
            | some (ni, buf4) =>
              match buffer_read_bytes 20 buf4 with
              | none => .sent SW.wrong_data_length st
              | some (ir, buf5) =>
                let st := { st with inputs_root := ir }
                if ni > 252 then .sent SW.incorrect_data st
                else
                  let st := { st with n_inputs := ni }
                  match buffer_read_varint buf5 with
                  | none => .sent SW.wrong_data_length st
                  | some (no, buf6) =>
                    match buffer_read_bytes 20 buf6 with
                    | none => .sent SW.wrong_data_length st
                    | some (orr, _buf7) =>
                      let st := { st with outputs_root := orr }
                      if no > 252 then .sent SW.incorrect_data st
                      else
                        .proceed { st with n_outputs := no,
                                           master_key_fingerprint := e.master_fingerprint }

/-- Model of `process_next_input` (lines 146-166): reset the hash context and replay
the global unsigned transaction in `PARSEMODE_TXID`, targeting
`state->cur_input_index`; the subcontext results become available to the
next continuation. -/
def process_next_input (e : Env) (st : State) : StepResult :=
  let st := { st with hash_context := ([] : List Nat) ++ e.tx_bytes,
                      sub_prevout_hash := e.tx_prevout_hash st.cur_input_index,
                      sub_prevout_n := e.tx_prevout_n st.cur_input_index,
                      sub_n_inputs := e.tx_n_inputs,
                      sub_n_outputs := e.tx_n_outputs }
  .next .receiveGlobalTxInfo st

/-- Model of `receive_global_tx_info` (lines 168-196): copy the prevout data out of
the subcontext, check the declared input and output counts against the
replayed transaction, then start the input loop at index 0. -/
def receive_global_tx_info (_e : Env) (st : State) : StepResult :=
  let st := { st with cur_prevout_hash := st.sub_prevout_hash,
                      cur_prevout_n := st.sub_prevout_n }
  if st.n_inputs ≠ st.sub_n_inputs then .sent SW.incorrect_data st
  else if st.n_outputs ≠ st.sub_n_outputs then .sent SW.incorrect_data st
  else .next .requestNextInputMap { st with cur_input_index := 0 }

/-- Model of `input_keys_callback` (lines 203-216): classify one key of the current
input's map by its first byte. -/
def input_keys_callback (st : State) (data : List Nat) : State :=
  match data with
  | [] => st
  | key_type :: _ =>
    if key_type = PSBT_IN_WITNESS_UTXO then { st with cur_input_has_witnessUtxo := true }
    else if key_type = PSBT_IN_REDEEM_SCRIPT then { st with cur_input_has_redeemScript := true }
    else if key_type = PSBT_IN_SIGHASH_TYPE then { st with cur_input_has_sighash_type := true }
    else st

/-- Model of `request_next_input_map` (lines 218-233): clear the witness-utxo and
redeem-script flags (and only those), then fetch the current input's
authenticated map, running the key callback on every key. -/
def request_next_input_map (e : Env) (st : State) : StepResult :=
  let st := { st with cur_input_has_witnessUtxo := false,
                      cur_input_has_redeemScript := false }
  let st := (e.input_keys st.cur_input_index).foldl input_keys_callback st
  .next .processInputMap st

/-- Model of `process_input_map` (lines 235-254): require `PSBT_IN_SIGHASH_TYPE` and
fetch its 4-byte value, else abort with `SW_INCORRECT_DATA`. -/
def process_input_map (e : Env) (st : State) : StepResult :=
  if st.cur_input_has_sighash_type then
    .next .receiveSighashType
      { st with cur_input_sighash_type_le := (e.sighash_le st.cur_input_index).take 4 }
  else .sent SW.incorrect_data st

/-- Model of `receive_sighash_type` (lines 257-264): decode the little-endian sighash
type. -/
def receive_sighash_type (_e : Env) (st : State) : StepResult :=
  .next .requestNonWitnessUtxo
    { st with cur_input_sighash_type := read_le_bytes (st.cur_input_sighash_type_le.take 4) }

/-- Model of `request_non_witness_utxo` (lines 267-287): reset the hash context and
replay the non-witness UTXO of the current input in `PARSEMODE_TXID`,
requesting output index `cur_prevout_n`. -/
def request_non_witness_utxo (e : Env) (st : State) : StepResult :=
  let st := { st with
    hash_context := ([] : List Nat) ++ e.nwu_bytes st.cur_input_index,
    sub_vout_scriptpubkey := e.nwu_vout_spk st.cur_input_index st.cur_prevout_n,
    sub_vout_scriptpubkey_len := e.nwu_vout_spk_len st.cur_input_index st.cur_prevout_n }
  .next .receiveNonWitnessUtxo st

/-- Model of `receive_non_witness_utxo` (lines 289-324): double-SHA256 the replayed
previous transaction and compare with the recorded prevout hash; then bound
and record the referenced output's scriptPubKey; dispatch to the legacy or
segwit path. -/
def receive_non_witness_utxo (e : Env) (st : State) : StepResult :=
  let txhash := e.sha (e.sha st.hash_context)
  if txhash ≠ st.cur_prevout_hash then .sent SW.incorrect_data st
  else
    let st := { st with cur_input_prevout_scriptpubkey_len := st.sub_vout_scriptpubkey_len }
    if st.cur_input_prevout_scriptpubkey_len > MAX_PREVOUT_SCRIPTPUBKEY_LEN then
      .sent SW.signature_fail st
    else
      let st := { st with cur_input_prevout_scriptpubkey :=
        st.sub_vout_scriptpubkey.take st.cur_input_prevout_scriptpubkey_len }
      if ¬ st.cur_input_has_witnessUtxo then .next .signLegacy st
      else .next .signSegwit st

/-- Model of `sign_legacy` (lines 328-352): reset the hash context and replay the
unsigned transaction in `PARSEMODE_LEGACY_PASS1` for the current input and
sighash type. -/
def sign_legacy (e : Env) (st : State) : StepResult :=
  let st := { st with hash_context :=
    ([] : List Nat) ++ e.pass1_bytes st.cur_input_index st.cur_input_sighash_type }
  .next .signLegacyFirstPassCompleted st

/-- Model of `sign_legacy_first_pass_completed` (lines 356-378): with no redeem
script, append the varint-length-prefixed prevout scriptPubKey as the script
code; otherwise stream the redeem script into the hash context and obtain
its P2SH script for validation. -/
def sign_legacy_first_pass_completed (e : Env) (st : State) : StepResult :=
  if ¬ st.cur_input_has_redeemScript then
    let st := { st with hash_context := (st.hash_context
      ++ varint_encode st.cur_input_prevout_scriptpubkey_len
      ++ st.cur_input_prevout_scriptpubkey.take st.cur_input_prevout_scriptpubkey_len) }
    .next .signLegacyStartSecondPass st
  else
    let st := { st with hash_context := st.hash_context ++ e.redeem_bytes st.cur_input_index,
                        sub_p2sh_script := (e.p2sh_script_of st.cur_input_index).take 22 }
    .next .signLegacyValidateRedeemScript st

/-- Model of `sign_legacy_validate_redeemScript` (lines 380-400): the committed
scriptPubKey must be exactly 22 bytes and equal to the P2SH script computed
from the redeem script; otherwise `SW_INCORRECT_DATA`. -/
def sign_legacy_validate_redeemScript (_e : Env) (st : State) : StepResult :=
  if st.cur_input_prevout_scriptpubkey_len ≠ 1 + 20 + 1 then .sent SW.incorrect_data st
  else if st.cur_input_prevout_scriptpubkey.take 22 ≠ st.sub_p2sh_script.take 22 then
    .sent SW.incorrect_data st
  else .next .signLegacyStartSecondPass st

/-- Model of `sign_legacy_start_second_pass` (lines 403-421): replay the unsigned
transaction in `PARSEMODE_LEGACY_PASS2`, continuing the same hash context. -/
def sign_legacy_start_second_pass (e : Env) (st : State) : StepResult :=
  .next .computeSighashAndSignLegacy
    { st with hash_context := (st.hash_context
      ++ e.pass2_bytes st.cur_input_index st.cur_input_sighash_type) }

/-- Observable outcome of `compute_sighash_and_sign_legacy`: the computed
sighash, the contents of the two key-material buffers at the moment the
function returns, the produced signature if any, and the status word sent
if any. -/
structure SignOutcome where
  sighash : List Nat
  private_key_final : List Nat
  chain_code_final : List Nat
  der_sig : Option (List Nat)
  sent_sw : Option SW
  deriving DecidableEq, Repr

/-- Model of `compute_sighash_and_sign_legacy` (lines 424-490): finalize and re-hash
the accumulated context (double-SHA256), derive the private key and chain
code at the hard-coded path, and sign.  The cleanup block zeroes the private
key buffer; no path zeroes the chain code buffer.  On a signing exception the
catch clause merely returns: no status word is sent.  (The cleanup is
modelled as running on the exception path as well, the reading most
favorable to the zeroization claim.) -/
def compute_sighash_and_sign_legacy (e : Env) (st : State) : SignOutcome :=
  let sighash := e.sha (e.sha st.hash_context)
  let pk := e.derived_private_key
  let cc := e.derived_chain_code
  match e.ecdsa_sign sighash with
  | none =>
    { sighash := sighash,
      private_key_final := List.replicate pk.length 0,
      chain_code_final := cc,
      der_sig := none,
      sent_sw := none }
  | some sig =>
    { sighash := sighash,
      private_key_final := List.replicate pk.length 0,
      chain_code_final := cc,
      der_sig := some sig,
      sent_sw := some SW.ok }

/-- Model of `sign_segwit` (lines 493-500): unimplemented, sends `SW_BAD_STATE`. -/
def sign_segwit (_e : Env) (st : State) : StepResult :=
  .sent SW.bad_state st

/-- One step of the continuation machine. -/
def runStep (e : Env) : Step → State → StepResult
  | .processNextInput, st => process_next_input e st
  | .receiveGlobalTxInfo, st => receive_global_tx_info e st
  | .requestNextInputMap, st => request_next_input_map e st
  | .processInputMap, st => process_input_map e st
  | .receiveSighashType, st => receive_sighash_type e st
  | .requestNonWitnessUtxo, st => request_non_witness_utxo e st
  | .receiveNonWitnessUtxo, st => receive_non_witness_utxo e st
  | .signLegacy, st => sign_legacy e st
  | .signLegacyFirstPassCompleted, st => sign_legacy_first_pass_completed e st
  | .signLegacyValidateRedeemScript, st => sign_legacy_validate_redeemScript e st
  | .signLegacyStartSecondPass, st => sign_legacy_start_second_pass e st
  | .computeSighashAndSignLegacy, st =>
    let r := compute_sighash_and_sign_legacy e st
    match r.sent_sw with
    | some sw => .sent sw st
    | none => .halted st
  | .signSegwit, st => sign_segwit e st

/-- Terminal outcome of a whole session run: a status word was sent, the
machine returned without sending one, or the fuel ran out.  The trace lists
the continuations executed, in order. -/
inductive RunResult
  | replied (sw : SW) (st : State) (trace : List Step)
  | hung_up (st : State) (trace : List Step)
  | out_of_fuel (trace : List Step)
  deriving DecidableEq, Repr

/-- The final status word, if one was sent. -/
def RunResult.sw : RunResult → Option SW
  | .replied sw _ _ => some sw
  | _ => none

/-- The executed trace. -/
def RunResult.trace : RunResult → List Step
  | .replied _ _ tr => tr
  | .hung_up _ tr => tr
  | .out_of_fuel tr => tr

/-- The final state, when the machine terminated. -/
def RunResult.finalState : RunResult → Option State
  | .replied _ st _ => some st
  | .hung_up st _ => some st
  | .out_of_fuel _ => none

/-- Drive the continuation machine for at most `fuel` steps. -/
def run (e : Env) : Nat → Step → State → List Step → RunResult
  | 0, _, _, tr => .out_of_fuel tr
  | fuel + 1, s, st, tr =>
    match runStep e s st with
    | .sent sw st' => .replied sw st' (tr ++ [s])
    | .halted st' => .hung_up st' (tr ++ [s])
    | .next s' st' => run e fuel s' st' (tr ++ [s])

/-- A whole session: the command handler, then (the global map Merkle check
being assumed to succeed, as it is an external collaborator) the
continuation machine starting at `process_next_input`. -/
def session (p1 p2 : Nat) (pin : Bool) (buf : List Nat) (e : Env) (st : State)
    (fuel : Nat) : RunResult :=
  match handler_sign_psbt p1 p2 pin buf e st with
  | .sent sw st' => .replied sw st' []
  | .proceed st' => run e fuel .processNextInput st' []

/-! ### Concrete scenarios used by the evaluations and witnesses -/

/-- A list of `n` zero bytes. -/
def zeros (n : Nat) : List Nat := List.replicate n 0

/-- A fully well-formed two-input command header: global map size 1, then the
two 20-byte global roots, declared input count 2 with its 20-byte root, and
declared output count 1 with its 20-byte root. -/
def c1_buf : List Nat := [1] ++ zeros 40 ++ [2] ++ zeros 20 ++ [1] ++ zeros 20

/-- A concrete environment describing a valid two-input PSBT whose first
input is a legacy P2PKH input with sighash type 1 (SIGHASH_ALL), with every
integrity check passing and the ECDSA primitive succeeding.  The SHA-256
oracle is instantiated with a constant function, and the recorded prevout
hash is chosen to match it, so the commitment check passes. -/
def e_c1 : Env :=
  { sha := fun _ => zeros 32,
    tx_bytes := [1, 2, 3],
    tx_n_inputs := 2,
    tx_n_outputs := 1,
    tx_prevout_hash := fun _ => zeros 32,
    tx_prevout_n := fun _ => 0,
    input_keys := fun _ => [[PSBT_IN_SIGHASH_TYPE]],
    sighash_le := fun _ => [1, 0, 0, 0],
    nwu_bytes := fun _ => [9, 9],
    nwu_vout_spk := fun _ _ => [0x76, 0xa9, 0x14] ++ zeros 20 ++ [0x88, 0xac],
    nwu_vout_spk_len := fun _ _ => 25,
    pass1_bytes := fun _ _ => [4, 4],
    pass2_bytes := fun _ _ => [5, 5],
    redeem_bytes := fun _ => [],
    p2sh_script_of := fun _ => [],
    master_fingerprint := 0,
    derived_private_key := zeros 32,
    derived_chain_code := 1 :: zeros 31,
    ecdsa_sign := fun _ => some [0x30, 0x06] }

/-- The two-input session of `e_c1`, run to termination. -/
def c1_run : RunResult := session 0 0 true c1_buf e_c1 initState 20

/-- A state about to enter the signing step. -/
def st_sign : State := { initState with hash_context := [7, 7] }

/-- Variant of `e_c1` with an ECDSA primitive that throws. -/
def e_sigfail : Env := { e_c1 with ecdsa_sign := fun _ => none }

/-! ### Claims -/

/-- Claim C1 (code bug).  The claim says the Input Processing Loop processes
every input at index `0 .. n_inputs - 1` and reports OK only after all
`n_inputs` inputs are processed and signed.  The code, however, never
advances `cur_input_index` and never returns to `request_next_input_map`
after signing: on a session declaring (and committing to) 2 inputs, with
every check passing, the machine replies `SW_OK` while `cur_input_index` is
still 0, having fetched an input map exactly once and signed exactly once. -/
theorem session_ok_after_first_input_only :
    c1_run.sw = some SW.ok
    ∧ (handler_sign_psbt 0 0 true c1_buf e_c1 initState).stateOf.n_inputs = 2
    ∧ c1_run.trace.count Step.requestNextInputMap = 1
    ∧ c1_run.trace.count Step.computeSighashAndSignLegacy = 1
    ∧ c1_run.finalState.map State.cur_input_index = some 0 := by
  decide

/-- Claim C2 (code bug).  The claim says the private key buffer and the
chain code buffer both read as all-zero on every exit of the signing step.
`crypto_derive_private_key` fills the chain code buffer, and no path of
`compute_sighash_and_sign_legacy` ever zeroes it (the cleanup block covers
only the private key): on a successful signing attempt whose derived chain
code is nonzero, the chain code buffer does not read as all-zero when the
call returns. -/
theorem chain_code_not_zeroed_on_return :
    (compute_sighash_and_sign_legacy e_c1 st_sign).sent_sw = some SW.ok
    ∧ (compute_sighash_and_sign_legacy e_c1 st_sign).chain_code_final ≠ zeros 32
    ∧ (compute_sighash_and_sign_legacy e_c1 st_sign).private_key_final = zeros 32 := by
  decide

/-- Claim C3 (code bug).  The claim says an internal failure of the ECDSA
primitive is reported to the host with a distinct signature-failure status.
The catch clause of `compute_sighash_and_sign_legacy` merely returns: when
the primitive throws, no status word at all is sent and the machine halts
without replying. -/
theorem sign_failure_sends_no_status :
    (compute_sighash_and_sign_legacy e_sigfail st_sign).sent_sw = none
    ∧ runStep e_sigfail Step.computeSighashAndSignLegacy st_sign = StepResult.halted st_sign := by
  decide

/-! ### Helper lemmas (shared) -/

/-- A sent status word means the step did not schedule a continuation. -/
theorem StepResult.sentSW_not_next {r : StepResult} {sw : SW}
    (h : r.sentSW = some sw) : ∀ s st, r ≠ StepResult.next s st := by
  intro s st hr
  subst hr
  exact Option.noConfusion h

/-- The sighash computed by the signing step is the double SHA-256 of the
accumulated hash context. -/
theorem compute_sighash_eq (e : Env) (st : State) :
    (compute_sighash_and_sign_legacy e st).sighash = e.sha (e.sha st.hash_context) := by
  rcases h : e.ecdsa_sign (e.sha (e.sha st.hash_context)) with _ | sig <;>
    simp [compute_sighash_and_sign_legacy, h]

/-- Whether a key's first byte declares key type `t`. -/
def key_declares (k : List Nat) (t : Nat) : Bool :=
  match k with
  | [] => false
  | b :: _ => b == t

/-- Whether some key of the map declares key type `t`. -/
def keys_declare (keys : List (List Nat)) (t : Nat) : Bool :=
  keys.any fun k => key_declares k t

/-- Effect of one key callback on the three classification flags. -/
theorem input_keys_callback_flags (st : State) (k : List Nat) :
    (input_keys_callback st k).cur_input_has_witnessUtxo
        = (st.cur_input_has_witnessUtxo || key_declares k PSBT_IN_WITNESS_UTXO)
    ∧ (input_keys_callback st k).cur_input_has_redeemScript
        = (st.cur_input_has_redeemScript || key_declares k PSBT_IN_REDEEM_SCRIPT)
    ∧ (input_keys_callback st k).cur_input_has_sighash_type
        = (st.cur_input_has_sighash_type || key_declares k PSBT_IN_SIGHASH_TYPE) := by
  rcases k with _ | ⟨b, rest⟩
  · simp [input_keys_callback, key_declares]
  · by_cases h1 : b = 1
    · simp [input_keys_callback, key_declares, h1,
            PSBT_IN_WITNESS_UTXO, PSBT_IN_REDEEM_SCRIPT, PSBT_IN_SIGHASH_TYPE]
    · by_cases h4 : b = 4
      · simp [input_keys_callback, key_declares, h1, h4,
              PSBT_IN_WITNESS_UTXO, PSBT_IN_REDEEM_SCRIPT, PSBT_IN_SIGHASH_TYPE]
      · by_cases h3 : b = 3
        · simp [input_keys_callback, key_declares, h1, h3, h4,
                PSBT_IN_WITNESS_UTXO, PSBT_IN_REDEEM_SCRIPT, PSBT_IN_SIGHASH_TYPE]
        · simp [input_keys_callback, key_declares, h1, h3, h4,
                PSBT_IN_WITNESS_UTXO, PSBT_IN_REDEEM_SCRIPT, PSBT_IN_SIGHASH_TYPE]

/-- Effect of the whole key-callback pass on the three classification
flags: each flag ends up as its previous value or-ed with whether some key
declares the corresponding type. -/
theorem keys_foldl_flags (keys : List (List Nat)) (st : State) :
    (keys.foldl input_keys_callback st).cur_input_has_witnessUtxo
        = (st.cur_input_has_witnessUtxo || keys_declare keys PSBT_IN_WITNESS_UTXO)
    ∧ (keys.foldl input_keys_callback st).cur_input_has_redeemScript
        = (st.cur_input_has_redeemScript || keys_declare keys PSBT_IN_REDEEM_SCRIPT)
    ∧ (keys.foldl input_keys_callback st).cur_input_has_sighash_type
        = (st.cur_input_has_sighash_type || keys_declare keys PSBT_IN_SIGHASH_TYPE) := by
  induction keys generalizing st with
  | nil => simp [keys_declare]
  | cons k ks ih =>
    obtain ⟨hw, hr, hs⟩ := ih (input_keys_callback st k)
    obtain ⟨cw, cr, cs⟩ := input_keys_callback_flags st k
    refine ⟨?_, ?_, ?_⟩
    · rw [List.foldl_cons, hw, cw, Bool.or_assoc]
      simp [keys_declare, List.any_cons]
    · rw [List.foldl_cons, hr, cr, Bool.or_assoc]
      simp [keys_declare, List.any_cons]
    · rw [List.foldl_cons, hs, cs, Bool.or_assoc]
      simp [keys_declare, List.any_cons]

/-- If the recomputed double SHA-256 of the replayed previous transaction
differs from the recorded prevout hash, `receive_non_witness_utxo` aborts
with `SW_INCORRECT_DATA` and the session state at the abort is unchanged. -/
theorem receive_nwu_mismatch (e : Env) (st : State)
    (h : e.sha (e.sha st.hash_context) ≠ st.cur_prevout_hash) :
    receive_non_witness_utxo e st = StepResult.sent SW.incorrect_data st := by
  simp only [receive_non_witness_utxo]
  rw [if_pos h]

/-- A declared-count mismatch makes `receive_global_tx_info` send
`SW_INCORRECT_DATA`. -/
theorem receive_gti_mismatch (e : Env) (st : State)
    (h : st.n_inputs ≠ st.sub_n_inputs ∨ st.n_outputs ≠ st.sub_n_outputs) :
    (receive_global_tx_info e st).sentSW = some SW.incorrect_data := by
  simp only [receive_global_tx_info]
  by_cases h1 : st.n_inputs ≠ st.sub_n_inputs
  · rw [if_pos h1]; rfl
  · rcases h with h | h
    · exact absurd h h1
    · rw [if_neg h1, if_pos h]; rfl

/-- Claim C4 (confirmed).  Fetching the committed non-witness previous
transaction replays its bytes through the reconstructor into a fresh hash
context; the next continuation recomputes its transaction id as the double
SHA-256 of those bytes and compares it with the prevout hash recorded in
the unsigned transaction.  On any mismatch the session aborts with
`SW_INCORRECT_DATA` — a terminal reply, so the input is never signed. -/
theorem nwu_txid_mismatch_rejected (e : Env) (st : State)
    (h : e.sha (e.sha (e.nwu_bytes st.cur_input_index)) ≠ st.cur_prevout_hash) :
    ∃ st1 : State,
      request_non_witness_utxo e st = StepResult.next Step.receiveNonWitnessUtxo st1
      ∧ receive_non_witness_utxo e st1 = StepResult.sent SW.incorrect_data st1 :=
  ⟨_, rfl, receive_nwu_mismatch e _ h⟩

/-- A session state whose recorded prevout hash cannot match the all-zero
digest of the `e_c1` SHA oracle. -/
def st4 : State := { initState with cur_prevout_hash := [1] }

/-- Witness for C4: a concrete mismatching prevout hash is rejected. -/
theorem nwu_txid_mismatch_rejected_witness :
    (e_c1.sha (e_c1.sha (e_c1.nwu_bytes st4.cur_input_index)) ≠ st4.cur_prevout_hash)
    ∧ ∃ st1 : State,
        request_non_witness_utxo e_c1 st4 = StepResult.next Step.receiveNonWitnessUtxo st1
        ∧ receive_non_witness_utxo e_c1 st1 = StepResult.sent SW.incorrect_data st1 :=
  ⟨by decide, nwu_txid_mismatch_rejected e_c1 st4 (by decide)⟩

/-- Claim C5 (confirmed).  For a redeem-script input, a committed
scriptPubKey whose length is not exactly 22, or whose 22 bytes differ from
the P2SH script computed from the redeem script, makes
`sign_legacy_validate_redeemScript` abort with `SW_INCORRECT_DATA` — a
terminal reply, so the input is never signed. -/
theorem redeem_script_mismatch_rejected (e : Env) (st : State)
    (h : st.cur_input_prevout_scriptpubkey_len ≠ 22
       ∨ st.cur_input_prevout_scriptpubkey.take 22 ≠ st.sub_p2sh_script.take 22) :
    sign_legacy_validate_redeemScript e st = StepResult.sent SW.incorrect_data st := by
  unfold sign_legacy_validate_redeemScript
  rcases h with h | h
  · rw [if_pos (show st.cur_input_prevout_scriptpubkey_len ≠ 1 + 20 + 1 from h)]
  · by_cases h22 : st.cur_input_prevout_scriptpubkey_len = 1 + 20 + 1
    · rw [if_neg (not_not_intro h22), if_pos h]
    · rw [if_pos h22]

/-- A session state with a 21-byte committed scriptPubKey. -/
def st5 : State := { initState with cur_input_prevout_scriptpubkey_len := 21 }

/-- Witness for C5: a concrete 21-byte committed scriptPubKey is rejected. -/
theorem redeem_script_mismatch_rejected_witness :
    (st5.cur_input_prevout_scriptpubkey_len ≠ 22
       ∨ st5.cur_input_prevout_scriptpubkey.take 22 ≠ st5.sub_p2sh_script.take 22)
    ∧ sign_legacy_validate_redeemScript e_c1 st5 = StepResult.sent SW.incorrect_data st5 :=
  ⟨by decide, redeem_script_mismatch_rejected e_c1 st5 (by decide)⟩

/-- Claim C6 (confirmed).  Replaying the committed unsigned transaction
deposits its input and output counts in the subcontext; if either differs
from the declared `n_inputs`/`n_outputs`, the next continuation sends
`SW_INCORRECT_DATA`, and in particular never schedules
`request_next_input_map` — no input is processed. -/
theorem declared_counts_mismatch_rejected (e : Env) (st : State)
    (h : st.n_inputs ≠ e.tx_n_inputs ∨ st.n_outputs ≠ e.tx_n_outputs) :
    ∃ st1 : State,
      process_next_input e st = StepResult.next Step.receiveGlobalTxInfo st1
      ∧ (receive_global_tx_info e st1).sentSW = some SW.incorrect_data
      ∧ ∀ s st2, receive_global_tx_info e st1 ≠ StepResult.next s st2 :=
  ⟨_, rfl, receive_gti_mismatch e _ h,
   StepResult.sentSW_not_next (receive_gti_mismatch e _ h)⟩

/-- A session state declaring one input where the committed transaction has
two. -/
def st6 : State := { initState with n_inputs := 1, n_outputs := 1 }

/-- Witness for C6: a concrete declared-count mismatch is rejected. -/
theorem declared_counts_mismatch_rejected_witness :
    (st6.n_inputs ≠ e_c1.tx_n_inputs ∨ st6.n_outputs ≠ e_c1.tx_n_outputs)
    ∧ ∃ st1 : State,
        process_next_input e_c1 st6 = StepResult.next Step.receiveGlobalTxInfo st1
        ∧ (receive_global_tx_info e_c1 st1).sentSW = some SW.incorrect_data
        ∧ ∀ s st2, receive_global_tx_info e_c1 st1 ≠ StepResult.next s st2 :=
  ⟨by decide, declared_counts_mismatch_rejected e_c1 st6 (by decide)⟩

/-- Claim C7 (confirmed).  For a legacy input with no declared redeem
script, completing pass 1 appends to the running hash context exactly the
committed prevout scriptPubKey prefixed by its compact-varint length, and
after pass 2 the sighash handed to the signer is the double SHA-256 of the
accumulated hash context. -/
theorem legacy_script_code_and_double_sha (e : Env) (st : State)
    (h : st.cur_input_has_redeemScript = false) :
    ∃ st1 st2 : State,
      sign_legacy_first_pass_completed e st = StepResult.next Step.signLegacyStartSecondPass st1
      ∧ st1.hash_context = (st.hash_context
          ++ varint_encode st.cur_input_prevout_scriptpubkey_len
          ++ st.cur_input_prevout_scriptpubkey.take st.cur_input_prevout_scriptpubkey_len)
      ∧ sign_legacy_start_second_pass e st1 = StepResult.next Step.computeSighashAndSignLegacy st2
      ∧ (compute_sighash_and_sign_legacy e st2).sighash = e.sha (e.sha st2.hash_context) := by
  refine ⟨{ st with hash_context := (st.hash_context
      ++ varint_encode st.cur_input_prevout_scriptpubkey_len
      ++ st.cur_input_prevout_scriptpubkey.take st.cur_input_prevout_scriptpubkey_len) },
    _, ?_, rfl, rfl, ?_⟩
  · unfold sign_legacy_first_pass_completed
    rw [if_pos (by simp [h])]
  · exact compute_sighash_eq e _

/-- Witness for C7: the fresh state has no redeem script declared. -/
theorem legacy_script_code_and_double_sha_witness :
    (initState.cur_input_has_redeemScript = false)
    ∧ ∃ st1 st2 : State,
        sign_legacy_first_pass_completed e_c1 initState
            = StepResult.next Step.signLegacyStartSecondPass st1
        ∧ st1.hash_context = (initState.hash_context
            ++ varint_encode initState.cur_input_prevout_scriptpubkey_len
            ++ initState.cur_input_prevout_scriptpubkey.take
                 initState.cur_input_prevout_scriptpubkey_len)
        ∧ sign_legacy_start_second_pass e_c1 st1
            = StepResult.next Step.computeSighashAndSignLegacy st2
        ∧ (compute_sighash_and_sign_legacy e_c1 st2).sighash
            = e_c1.sha (e_c1.sha st2.hash_context) :=
  ⟨rfl, legacy_script_code_and_double_sha e_c1 initState rfl⟩

/-- A state carrying a stale sighash-type flag from earlier processing. -/
def st_stale : State := { initState with cur_input_has_sighash_type := true }

/-- Variant of `e_c1` with an input map that declares no keys at all. -/
def e_nokeys : Env := { e_c1 with input_keys := fun _ => [] }

/-- Claim C8, counterexample.  `request_next_input_map` resets only the
witness-utxo and redeem-script flags: starting input processing with a
stale `cur_input_has_sighash_type = true` and an input map declaring no
keys whatsoever, the flag still reads `true` afterwards — a per-input field
value carried over, contradicting the claim that every per-input field
(including `cur_input_has_sighash_type`) is reset. -/
theorem sighash_flag_carried_over :
    e_nokeys.input_keys st_stale.cur_input_index = []
    ∧ st_stale.cur_input_has_sighash_type = true
    ∧ (request_next_input_map e_nokeys st_stale).stateOf.cur_input_has_sighash_type = true
    ∧ (request_next_input_map e_nokeys st_stale).stateOf.cur_input_has_witnessUtxo = false
    ∧ (request_next_input_map e_nokeys st_stale).stateOf.cur_input_has_redeemScript = false := by
  decide

/-- Claim C8, amended.  At the start of each input's processing only
`cur_input_has_witnessUtxo` and `cur_input_has_redeemScript` are reset
(their values after the map fetch depend only on the input map's keys),
while `cur_input_has_sighash_type` is not reset: its value after the fetch
is its previous value or-ed with what the map's keys declare, so a stale
`true` carries over from earlier processing. -/
theorem input_flags_after_map_fetch (e : Env) (st : State) :
    ∃ st' : State,
      request_next_input_map e st = StepResult.next Step.processInputMap st'
      ∧ st'.cur_input_has_witnessUtxo
          = keys_declare (e.input_keys st.cur_input_index) PSBT_IN_WITNESS_UTXO
      ∧ st'.cur_input_has_redeemScript
          = keys_declare (e.input_keys st.cur_input_index) PSBT_IN_REDEEM_SCRIPT
      ∧ st'.cur_input_has_sighash_type
          = (st.cur_input_has_sighash_type
             || keys_declare (e.input_keys st.cur_input_index) PSBT_IN_SIGHASH_TYPE) := by
  obtain ⟨hw, hr, hs⟩ := keys_foldl_flags (e.input_keys st.cur_input_index)
    { st with cur_input_has_witnessUtxo := false, cur_input_has_redeemScript := false }
  refine ⟨_, rfl, ?_, ?_, ?_⟩
  · simpa using hw
  · simpa using hr
  · simpa using hs

/-- Claim C9 (confirmed).  For a command whose header reads yield a
global-map entry count, input count, or output count above 252, the handler
replies `SW_INCORRECT_DATA` without ever reaching the
`call_check_merkle_tree_sorted` call — no authenticated map is fetched from
the host (a `HandlerResult.sent` outcome, never `HandlerResult.proceed`). -/
theorem oversized_count_rejected_before_any_fetch
    (buf b1 b2 b3 b4 b5 b6 b7 kr vr ir orr : List Nat)
    (g ni no : Nat) (e : Env) (st : State)
    (h1 : buffer_read_varint buf = some (g, b1))
    (h2 : buffer_read_bytes 20 b1 = some (kr, b2))
    (h3 : buffer_read_bytes 20 b2 = some (vr, b3))
    (h4 : buffer_read_varint b3 = some (ni, b4))
    (h5 : buffer_read_bytes 20 b4 = some (ir, b5))
    (h6 : buffer_read_varint b5 = some (no, b6))
    (h7 : buffer_read_bytes 20 b6 = some (orr, b7))
    (hgt : 252 < g ∨ 252 < ni ∨ 252 < no) :
    (handler_sign_psbt 0 0 true buf e st).sentSW = some SW.incorrect_data := by
  unfold handler_sign_psbt
  rw [if_neg (by simp), if_neg (by simp)]
  simp only [h1, h2, h3, h4, h5, h6, h7]
  by_cases hg : g > 252
  · rw [if_pos hg]; rfl
  · rw [if_neg hg]
    by_cases hni : ni > 252
    · rw [if_pos hni]; rfl
    · rw [if_neg hni]
      by_cases hno : no > 252
      · rw [if_pos hno]; rfl
      · rw [if_neg hno]
        exact absurd hgt (by omega)

/-- A command header declaring 1 global-map entry, 300 inputs, 1 output. -/
def buf9 : List Nat := [1] ++ zeros 40 ++ [0xfd, 0x2c, 0x01] ++ zeros 20 ++ [1] ++ zeros 20

/-- Witness for C9: the declared input count 300 is rejected with
`SW_INCORRECT_DATA` before any map fetch. -/
theorem oversized_count_rejected_before_any_fetch_witness :
    (252 < (1 : Nat) ∨ 252 < (300 : Nat) ∨ 252 < (1 : Nat))
    ∧ (handler_sign_psbt 0 0 true buf9 e_c1 initState).sentSW = some SW.incorrect_data :=
  ⟨by decide,
   oversized_count_rejected_before_any_fetch buf9 (buf9.drop 1) (buf9.drop 21)
     (buf9.drop 41) (buf9.drop 44) (buf9.drop 64) (buf9.drop 65) []
     (zeros 20) (zeros 20) (zeros 20) (zeros 20) 1 300 1 e_c1 initState
     (by decide) (by decide) (by decide) (by decide) (by decide) (by decide) (by decide)
     (by decide)⟩

/-- Claim C10 (confirmed).  A nonzero `p1` or `p2` makes the handler reply
`SW_WRONG_P1P2` at once: the session state it reports is the unmodified
incoming state, and the outcome does not depend on the command body at all
(no byte of it is read).  With `p1 = p2 = 0` and the device locked, the
handler replies `SW_SECURITY_STATUS_NOT_SATISFIED`, again with the state
unmodified and before any parsing. -/
theorem p1p2_and_unlock_checked_first (p1 p2 : Nat) (pin : Bool)
    (buf buf' : List Nat) (e : Env) (st : State) :
    ((p1 ≠ 0 ∨ p2 ≠ 0) →
        handler_sign_psbt p1 p2 pin buf e st = HandlerResult.sent SW.wrong_p1p2 st
        ∧ handler_sign_psbt p1 p2 pin buf e st = handler_sign_psbt p1 p2 pin buf' e st)
    ∧ (p1 = 0 → p2 = 0 → pin = false →
        handler_sign_psbt p1 p2 pin buf e st
          = HandlerResult.sent SW.security_status_not_satisfied st) := by
  constructor
  · intro hp
    have q1 : handler_sign_psbt p1 p2 pin buf e st = HandlerResult.sent SW.wrong_p1p2 st := by
      unfold handler_sign_psbt
      rw [if_pos hp]
    have q2 : handler_sign_psbt p1 p2 pin buf' e st = HandlerResult.sent SW.wrong_p1p2 st := by
      unfold handler_sign_psbt
      rw [if_pos hp]
    exact ⟨q1, q1.trans q2.symm⟩
  · intro e1 e2 e3
    subst e1; subst e2; subst e3
    unfold handler_sign_psbt
    rw [if_neg (by simp), if_pos (by simp)]

/-- Witness for C10: `p1 = 1` is rejected with `SW_WRONG_P1P2` leaving the
state untouched, and a locked device with `p1 = p2 = 0` gets
`SW_SECURITY_STATUS_NOT_SATISFIED`. -/
theorem p1p2_and_unlock_checked_first_witness :
    handler_sign_psbt 1 0 true c1_buf e_c1 initState
        = HandlerResult.sent SW.wrong_p1p2 initState
    ∧ handler_sign_psbt 0 0 false c1_buf e_c1 initState
        = HandlerResult.sent SW.security_status_not_satisfied initState :=
  ⟨((p1p2_and_unlock_checked_first 1 0 true c1_buf [] e_c1 initState).1 (by decide)).1,
   (p1p2_and_unlock_checked_first 0 0 false c1_buf [] e_c1 initState).2 rfl rfl rfl⟩

end SignPsbt
